import Mathlib

/-!
# xDS control plane (`xds-server/internal/app`): snapshot synthesis and callbacks

A shallow embedding of `resources.go` and `callback.go`.

* Go `int32` values are integers (`Int`); the conversions `int32(x)` and `uint32(x)` are the
  explicit wrap-arounds `int32` and `uint32` below.  `int` is 64 bits wide.
* A Go `map[string]V` is an association list with unique keys (`GoMap`); assignment `m[k] = v`
  is `GoMap.set`, indexing `m[k]` (zero value when absent, also on a nil map) is `GoMap.index`.
  The order in which `range` visits a map is a `RangeOrder`, any permutation of the entries.
* The calls into the go-control-plane snapshot cache are the record `SnapshotCache`.
* The Kubernetes API server is the record `K8s`: what each client call returns.
* A Go call that can panic returns an `Outcome`.
* Only `Error`-level log lines are recorded (field `logs`); `Debug` lines are left out.
-/

set_option autoImplicit false

namespace App

/-! ## Go runtime: machine integers, maps, panics -/

/-- Go conversion `int32(x)` of an integer: two's-complement wrap-around to 32 bits. -/
def int32 (x : Int) : Int := (x + 2147483648) % 4294967296 - 2147483648

/-- Go conversion `uint32(x)` of an integer: reduction modulo `2^32`. -/
def uint32 (x : Int) : Nat := (x % 4294967296).toNat

/-- Range of a Go `int32`. -/
def isInt32 (x : Int) : Prop := -2147483648 ≤ x ∧ x < 2147483648

instance (x : Int) : Decidable (isInt32 x) := by unfold isInt32; exact inferInstance

/-- Largest Go `int` (64-bit platform). -/
def maxInt : Int := 9223372036854775807

/-- Smallest Go `int` (64-bit platform). -/
def minInt : Int := -9223372036854775808

/-- Result of a Go call that either returns or panics. -/
inductive Outcome (α : Type) where
  | ret (a : α)
  | panic (msg : String)
deriving Repr, DecidableEq

/-- Go `map[string]V` as an association list; keys are kept unique by `GoMap.set`. -/
abbrev GoMap (V : Type) := List (String × V)

/-- Go map assignment `m[k] = v`: overwrite the entry of `k` if present, else add one. -/
def GoMap.set {V : Type} : GoMap V → String → V → GoMap V
  | [], k, v => [(k, v)]
  | (a, b) :: es, k, v => if a = k then (k, v) :: es else (a, b) :: GoMap.set es k v

/-- Go map lookup with presence flag, `v, ok := m[k]`. -/
def GoMap.get? {V : Type} : GoMap V → String → Option V
  | [], _ => none
  | (a, b) :: es, k => if a = k then some b else GoMap.get? es k

/-- Go map indexing `m[k]` on a possibly nil map: the zero value `zero` when `k` is absent
or the map is nil. -/
def GoMap.index {V : Type} (m : Option (GoMap V)) (k : String) (zero : V) : V :=
  match m with
  | none => zero
  | some entries => (GoMap.get? entries k).getD zero

/-- Largest Go `uint64`. -/
def maxUint64 : Nat := 18446744073709551615

/-- The digit loop of Go `strconv.ParseUint(s, 10, 64)`, with `n` the value read so far.  The
characters are read in order: a character that is not an ASCII digit is a syntax error with
value `0`; a digit read when the value no longer fits 64 bits is a range error with the
largest value. -/
def parseUintLoop : List Char → Nat → Nat × Option String
  | [], n => (n, none)
  | c :: cs, n =>
    if !c.isDigit then (0, some "invalid syntax")
    else if n ≥ maxUint64 / 10 + 1 then (maxUint64, some "value out of range")
    else if n * 10 + (c.toNat - 48) > maxUint64 then (maxUint64, some "value out of range")
    else parseUintLoop cs (n * 10 + (c.toNat - 48))

/-- Go standard library `strconv.ParseUint(s, 10, 64)` on the characters of `s`. -/
def ParseUint (cs : List Char) : Nat × Option String :=
  if cs.isEmpty then (0, some "invalid syntax") else parseUintLoop cs 0

/-- Go standard library `strconv.Atoi` (base 10, 64-bit `int`): an optional sign followed by
one or more ASCII digits.  On a syntax error the value is `0`; on a range error the value is the
nearest representable `int`; in both cases the error is non-nil.  The short-string path of the
library gives the same results as `ParseInt(s, 10, 0)`, which is what is written here. -/
def Atoi (s : String) : Int × Option String :=
  let cs := s.toList
  if cs.isEmpty then (0, some "invalid syntax")
  else
    let neg : Bool := match cs with
      | '-' :: _ => true
      | _ => false
    let ds : List Char := match cs with
      | '-' :: r => r
      | '+' :: r => r
      | _ => cs
    let un := ParseUint ds
    if un.2 = some "invalid syntax" then (0, some "invalid syntax")
    else if !neg && un.1 ≥ 9223372036854775808 then (maxInt, some "value out of range")
    else if neg && un.1 > 9223372036854775808 then (minInt, some "value out of range")
    else (if neg then -(un.1 : Int) else (un.1 : Int), none)

/-! ## Kubernetes objects read by the adapter -/

/-- Subset of a `v1.Endpoints` object: addresses (`address.IP`) and ports (`port.Port`). -/
structure EndpointSubset where
  Addresses : List String
  Ports : List Int
deriving Repr, DecidableEq

/-- A `v1.Endpoints` object: its metadata name and its subsets. -/
structure Endpoints where
  Name : String
  Subsets : List EndpointSubset
deriving Repr, DecidableEq

/-- A `v1.Pod`: its labels (a Go map) and `Status.PodIP`. -/
structure Pod where
  Labels : GoMap String
  PodIP : String
deriving Repr, DecidableEq

/-- What the Kubernetes client calls of one discovery cycle return.
`endPoints` is the `*EndpointsList` returned by `Endpoints("").List` (`none` is a nil pointer;
the typed client returns a non-nil, empty list together with an error) and `endPointsErr` its
error; likewise for the pod listing. -/
structure K8s where
  configErr : Option String
  clientErr : Option String
  endPoints : Option (List Endpoints)
  endPointsErr : Option String
  pods : List Pod
  podsErr : Option String
deriving Repr, DecidableEq

/-! ## resources.go: the endpoint source adapter -/

structure podEndPoint where
  IP : String
  Port : Int
  Weight : Int
deriving Repr, DecidableEq

structure podWeight where
  IP : String
  Weight : Int
deriving Repr, DecidableEq

/-- Zero value of `podWeight`. -/
def podWeight.zero : podWeight := ⟨"", 0⟩

/-- Weight computed for one pod in the loop of `getPodMetadata` (an `int`). -/
def podLabelWeight (pod : Pod) : Int :=
  match GoMap.get? pod.Labels "weight" with
  | some v => (Atoi v).1
  | none => 1

/-- Function `getPodMetadata`: `nil` when the pod listing fails, else the map from pod IP to
weight. -/
def getPodMetadata (k : K8s) : Option (GoMap podWeight) :=
  match k.podsErr with
  | some _ => none
  | none =>
    some (k.pods.foldl
      (fun ips pod => GoMap.set ips pod.PodIP ⟨pod.PodIP, int32 (podLabelWeight pod)⟩) [])

/-- Lines 89-98 of `getK8sEndPoints`: addresses and ports collected over all subsets. -/
def collectSubsets (subsets : List EndpointSubset) : List String × List Int :=
  subsets.foldl
    (fun acc subset =>
      (subset.Addresses.foldl (fun ips address => ips ++ [address]) acc.1,
       subset.Ports.foldl (fun ports port => ports ++ [port]) acc.2))
    ([], [])

/-- Lines 100-106 of `getK8sEndPoints`: one instance per port and address. -/
def buildPodEndPoints (podWeights : Option (GoMap podWeight)) (ips : List String)
    (ports : List Int) : List podEndPoint :=
  ports.foldl
    (fun acc port =>
      ips.foldl
        (fun acc ip => acc ++ [⟨ip, port, (GoMap.index podWeights ip podWeight.zero).Weight⟩])
        acc)
    []

/-- The instance sequence computed for one matching `Endpoints` object. -/
def endPointInstances (podWeights : Option (GoMap podWeight)) (endPoint : Endpoints) :
    List podEndPoint :=
  let c := collectSubsets endPoint.Subsets
  buildPodEndPoints podWeights c.1 c.2

/-- The two nested loops of `getK8sEndPoints` (lines 84-110). -/
def fillEndPoints (podWeights : Option (GoMap podWeight)) (items : List Endpoints)
    (serviceNames : List String) : GoMap (List podEndPoint) :=
  serviceNames.foldl
    (fun m serviceName =>
      items.foldl
        (fun m endPoint =>
          if endPoint.Name = serviceName then
            GoMap.set m serviceName (endPointInstances podWeights endPoint)
          else m)
        m)
    []

/-- Value returned by `getK8sEndPoints`: the map, the error, and the error log lines. -/
structure EndPointsResult where
  k8sEndPoints : GoMap (List podEndPoint)
  err : Option String
  logs : List String
deriving Repr, DecidableEq

/-- Function `getK8sEndPoints`.  It panics when the in-cluster configuration or the clientset
cannot be built, and when it ranges over the items of a nil list; its error result is nil on
every return path. -/
def getK8sEndPoints (k : K8s) (serviceNames : List String) : Outcome EndPointsResult :=
  match k.configErr with
  | some e => .panic e
  | none =>
    match k.clientErr with
    | some e => .panic e
    | none =>
      let logs : List String := match k.endPointsErr with
        | some _ => ["Received error while trying to get EndPoints"]
        | none => []
      let podWeights := getPodMetadata k
      match serviceNames, k.endPoints with
      | [], _ => .ret ⟨[], none, logs⟩
      | _ :: _, none => .panic "runtime error: invalid memory address or nil pointer dereference"
      | _ :: _, some items => .ret ⟨fillEndPoints podWeights items serviceNames, none, logs⟩

/-! ## xDS resources (the fields of the go-control-plane messages that the code sets) -/

inductive Protocol where
  | TCP
  | UDP
deriving Repr, DecidableEq

/-- A `core.Address` holding a `core.SocketAddress` with a `PortValue` (a `uint32`). -/
structure SocketAddress where
  Address : String
  Protocol : Protocol
  PortValue : Nat
deriving Repr, DecidableEq

inductive HealthStatus where
  | UNKNOWN
  | HEALTHY
  | UNHEALTHY
  | DRAINING
  | TIMEOUT
  | DEGRADED
deriving Repr, DecidableEq

/-- An `endpoint.LbEndpoint` whose host identifier is an endpoint address. -/
structure LbEndpoint where
  Address : SocketAddress
  HealthStatus : HealthStatus
  LoadBalancingWeight : Nat
deriving Repr, DecidableEq

structure Locality where
  Region : String
  Zone : String
deriving Repr, DecidableEq

structure LocalityLbEndpoints where
  Locality : Locality
  Priority : Nat
  LoadBalancingWeight : Nat
  LbEndpoints : List LbEndpoint
deriving Repr, DecidableEq

structure ClusterLoadAssignment where
  ClusterName : String
  Endpoints : List LocalityLbEndpoints
deriving Repr, DecidableEq

inductive LbPolicy where
  | ROUND_ROBIN
  | LEAST_REQUEST
  | RING_HASH
  | RANDOM
deriving Repr, DecidableEq

inductive DiscoveryType where
  | STATIC
  | STRICT_DNS
  | LOGICAL_DNS
  | EDS
  | ORIGINAL_DST
deriving Repr, DecidableEq

/-- A `core.ConfigSource`: which specifier is set. -/
inductive ConfigSource where
  | Ads
  | Path (path : String)
deriving Repr, DecidableEq

structure Cluster where
  Name : String
  LbPolicy : LbPolicy
  ClusterDiscoveryType : DiscoveryType
  EdsConfig : ConfigSource
deriving Repr, DecidableEq

/-- A `route.Route` with a prefix match and a route action to a single cluster. -/
structure Route where
  Prefix : String
  Cluster : String
deriving Repr, DecidableEq

structure VirtualHost where
  Name : String
  Domains : List String
  Routes : List Route
deriving Repr, DecidableEq

structure RouteConfiguration where
  Name : String
  VirtualHosts : List VirtualHost
deriving Repr, DecidableEq

/-- The `hcm.Rds` route specifier. -/
structure Rds where
  RouteConfigName : String
  ConfigSource : ConfigSource
deriving Repr, DecidableEq

inductive CodecType where
  | AUTO
  | HTTP1
  | HTTP2
deriving Repr, DecidableEq

/-- An `hcm.HttpConnectionManager` using the `Rds` route specifier; `HttpFilters` holds the
filter names. -/
structure HttpConnectionManager where
  CodecType : CodecType
  Rds : Rds
  HttpFilters : List String
deriving Repr, DecidableEq

/-- A listener filter: its name and the connection manager packed in its typed config. -/
structure Filter where
  Name : String
  TypedConfig : HttpConnectionManager
deriving Repr, DecidableEq

structure FilterChain where
  Filters : List Filter
deriving Repr, DecidableEq

structure Listener where
  Name : String
  ApiListener : HttpConnectionManager
  Address : SocketAddress
  FilterChains : List FilterChain
deriving Repr, DecidableEq

/-- A `types.Resource`: one of the four resource messages. -/
inductive Resource where
  | endpoint (cla : ClusterLoadAssignment)
  | cluster (c : Cluster)
  | route (rc : RouteConfiguration)
  | listener (l : Listener)
deriving Repr, DecidableEq

/-- Name constant `wellknown.HTTPConnectionManager`. -/
def HTTPConnectionManager : String := "envoy.filters.network.http_connection_manager"

/-! ## resources.go: the resource synthesizer -/

/-- The `LbEndpoint` appended for one `podEndPoint` in the loop of `clusterLoadAssignment`. -/
def lbEndpoint (p : podEndPoint) : LbEndpoint :=
  { Address := { Address := p.IP, Protocol := Protocol.TCP, PortValue := uint32 p.Port }
    HealthStatus := HealthStatus.HEALTHY
    LoadBalancingWeight := uint32 p.Weight }

def clusterLoadAssignment (podEndPoints : List podEndPoint) (clusterName : String)
    (region : String) (zone : String) : List Resource :=
  let lbs : List LbEndpoint := podEndPoints.foldl (fun lbs p => lbs ++ [lbEndpoint p]) []
  [Resource.endpoint
    { ClusterName := clusterName
      Endpoints := [{ Locality := { Region := region, Zone := zone }
                      Priority := 0
                      LoadBalancingWeight := uint32 1000
                      LbEndpoints := lbs }] }]

def createCluster (clusterName : String) : List Resource :=
  [Resource.cluster
    { Name := clusterName
      LbPolicy := LbPolicy.ROUND_ROBIN
      ClusterDiscoveryType := DiscoveryType.EDS
      EdsConfig := ConfigSource.Ads }]

def createVirtualHost (virtualHostName listenerName clusterName : String) : VirtualHost :=
  { Name := virtualHostName
    Domains := [listenerName]
    Routes := [{ Prefix := "", Cluster := clusterName }] }

def createRoute (routeConfigName virtualHostName listenerName clusterName : String) :
    List Resource :=
  let vh := createVirtualHost virtualHostName listenerName clusterName
  [Resource.route { Name := routeConfigName, VirtualHosts := [vh] }]

/-- Function `createListener`; the parameter `clusterName` is unused, as in the source.  Marshalling the
connection manager into an `Any` keeps its content and does not fail for this message. -/
def createListener (listenerName : String) (_clusterName : String) (routeConfigName : String) :
    List Resource :=
  let hcRds : Rds := { RouteConfigName := routeConfigName, ConfigSource := ConfigSource.Ads }
  let manager : HttpConnectionManager :=
    { CodecType := CodecType.AUTO, Rds := hcRds, HttpFilters := ["envoy.filters.http.router"] }
  let pbst := manager
  [Resource.listener
    { Name := listenerName
      ApiListener := pbst
      Address := { Address := "0.0.0.0", Protocol := Protocol.TCP, PortValue := 10000 }
      FilterChains := [{ Filters := [{ Name := HTTPConnectionManager, TypedConfig := pbst }] }] }]

/-- The map `resources` handed to `cache.NewSnapshot`: the four collections by type. -/
structure Resources where
  eds : List Resource
  cds : List Resource
  rds : List Resource
  lds : List Resource
deriving Repr, DecidableEq

/-- Go `fmt.Sprintf("%s" ++ suffix, service)`. -/
def sprintf (service suffix : String) : String := service ++ suffix

/-- One iteration of the loop of `GenerateSnapshot` (lines 280-287). -/
def addService (r : Resources) (service : String) (podEndPoints : List podEndPoint) :
    Resources :=
  let clusterName := sprintf service "-cluster"
  { eds := r.eds ++ clusterLoadAssignment podEndPoints clusterName "my-region" "my-zone"
    cds := r.cds ++ createCluster clusterName
    rds := r.rds ++ createRoute (sprintf service "-route") (sprintf service "-vhost")
      (sprintf service "-listener") clusterName
    lds := r.lds ++ createListener (sprintf service "-listener") clusterName
      (sprintf service "-route") }

/-- Lines 276-298 of `GenerateSnapshot`: the four collections built from the entries of the
endpoint map, visited in the order of the list `entries`. -/
def snapshotResources (entries : List (String × List podEndPoint)) : Resources :=
  entries.foldl (fun r e => addService r e.1 e.2) ⟨[], [], [], []⟩

/-- The order in which a `range` loop visits the entries of the endpoint map: a permutation of
the entries, chosen by the Go runtime. -/
structure RangeOrder where
  visit : GoMap (List podEndPoint) → List (String × List podEndPoint)
  perm : ∀ m, (visit m).Perm m

/-- The range order that visits the entries as they are stored. -/
def RangeOrder.stored : RangeOrder := ⟨fun m => m, fun m => List.Perm.refl m⟩

/-- A `cache.Snapshot`: the version and the resources it was built from. -/
structure Snapshot where
  Version : String
  Resources : Resources
deriving Repr, DecidableEq

/-- The two calls into the go-control-plane snapshot cache used by `GenerateSnapshot`:
`cache.NewSnapshot(version, resources)` and `snapshot.Consistent()` (`none` is a nil error). -/
structure SnapshotCache where
  NewSnapshot : String → Resources → Except String Snapshot
  Consistent : Snapshot → Option String

/-- Value returned by `GenerateSnapshot`: the snapshot pointer, the error, the error log. -/
structure SnapshotResult where
  snapshot : Option Snapshot
  err : Option String
  logs : List String
deriving Repr, DecidableEq

/-- Function `GenerateSnapshot`; `version` is the string of the fresh `uuid.New()` and `order`
the order in which the loop visits the endpoint map. -/
def GenerateSnapshot (lib : SnapshotCache) (order : RangeOrder) (k : K8s) (version : String)
    (services : List String) : Outcome SnapshotResult :=
  match getK8sEndPoints k services with
  | .panic msg => .panic msg
  | .ret r =>
    match r.err with
    | some _ =>
      .ret ⟨none, some "Error while trying to get EndPoints from k8s cluster",
        r.logs ++ ["Error while trying to get EndPoints from k8s cluster"]⟩
    | none =>
      let resources := snapshotResources (order.visit r.k8sEndPoints)
      match lib.NewSnapshot version resources with
      | .error _ =>
        .ret ⟨none, some "Error while creating snapshot",
          r.logs ++ ["Error while creating snapshot"]⟩
      | .ok snapshot =>
        match lib.Consistent snapshot with
        | some _ => .ret ⟨some snapshot, none, r.logs ++ ["Snapshot inconsistency"]⟩
        | none => .ret ⟨some snapshot, none, r.logs⟩

/-! ## callback.go -/

/-- The `Callbacks` struct: `Signal` is a channel (named by a number) or nil. -/
structure Callbacks where
  Signal : Option Nat
  Fetches : Int
  Requests : Int
deriving Repr, DecidableEq

/-- A `Callbacks` value together with the channels that have been closed so far, in the order
of the `close` calls. -/
structure CbState where
  cb : Callbacks
  closed : List Nat
deriving Repr, DecidableEq

/-- Go `n++` on an `int`: wraps at 64 bits. -/
def incr (n : Int) : Int :=
  (n + 1 + 9223372036854775808) % 18446744073709551616 - 9223372036854775808

/-- Lines 37-40 and 56-59: close the signal if armed and disarm it.  Closing a channel that is
already closed panics. -/
def closeSignal (s : CbState) : Outcome CbState :=
  match s.cb.Signal with
  | none => .ret s
  | some ch =>
    if ch ∈ s.closed then .panic "close of closed channel"
    else .ret { cb := { s.cb with Signal := none }, closed := s.closed ++ [ch] }

/-- Method `Callbacks.OnStreamRequest`, executed under the mutex; the returned error is always
nil. -/
def OnStreamRequest (s : CbState) : Outcome CbState :=
  closeSignal { s with cb := { s.cb with Requests := incr s.cb.Requests } }

/-- Method `Callbacks.OnFetchRequest`, executed under the mutex; the returned error is always
nil. -/
def OnFetchRequest (s : CbState) : Outcome CbState :=
  closeSignal { s with cb := { s.cb with Fetches := incr s.cb.Fetches } }

/-- A request event delivered to the callbacks. -/
inductive Event where
  | streamRequest
  | fetchRequest
deriving Repr, DecidableEq

def Event.handle (e : Event) (s : CbState) : Outcome CbState :=
  match e with
  | .streamRequest => OnStreamRequest s
  | .fetchRequest => OnFetchRequest s

/-- The outcomes after each event of a sequence, in order; the mutex serialises the handlers.
After a panic no further handler runs. -/
def runEvents (s : CbState) : List Event → List (Outcome CbState)
  | [] => []
  | e :: es =>
    match e.handle s with
    | .ret s1 => .ret s1 :: runEvents s1 es
    | .panic msg => [.panic msg]

/-- A snapshot cache whose `NewSnapshot` stores the version and the resources and whose
consistency check is `check`. -/
def cacheWith (check : Snapshot → Option String) : SnapshotCache :=
  { NewSnapshot := fun version resources => .ok ⟨version, resources⟩
    Consistent := check }

/-! ## Properties of a snapshot's resources -/

/-- Names of the clusters in a collection. -/
def clusterNames (cds : List Resource) : List String :=
  cds.filterMap (fun res => match res with
    | .cluster c => some c.Name
    | _ => none)

/-- Cluster names of the load assignments in a collection. -/
def assignmentNames (eds : List Resource) : List String :=
  eds.filterMap (fun res => match res with
    | .endpoint cla => some cla.ClusterName
    | _ => none)

/-- Names of the route configurations in a collection. -/
def routeNames (rds : List Resource) : List String :=
  rds.filterMap (fun res => match res with
    | .route rc => some rc.Name
    | _ => none)

/-- Cluster names referenced by the routes of the route configurations in a collection. -/
def routeClusterRefs (rds : List Resource) : List String :=
  rds.flatMap (fun res => match res with
    | .route rc => rc.VirtualHosts.flatMap (fun vh => vh.Routes.map (fun rt => rt.Cluster))
    | _ => [])

/-- Route configuration names that the listeners in a collection refer to through RDS, in
their API listener and in the connection managers of their filter chains. -/
def listenerRouteRefs (lds : List Resource) : List String :=
  lds.flatMap (fun res => match res with
    | .listener l =>
      l.ApiListener.Rds.RouteConfigName ::
        l.FilterChains.flatMap
          (fun fc => fc.Filters.map (fun f => f.TypedConfig.Rds.RouteConfigName))
    | _ => [])

/-- The cross-reference invariant of the four collections: routes refer to clusters of the
cluster collection, every cluster has a load assignment of its name, listeners refer to route
configurations of the route collection. -/
def CrossReferenced (r : Resources) : Prop :=
  (∀ name ∈ routeClusterRefs r.rds, name ∈ clusterNames r.cds) ∧
  (∀ name ∈ clusterNames r.cds, name ∈ assignmentNames r.eds) ∧
  (∀ name ∈ listenerRouteRefs r.lds, name ∈ routeNames r.rds)

instance (r : Resources) : Decidable (CrossReferenced r) := by
  unfold CrossReferenced; exact inferInstance

/-- The port-major cross product of addresses and ports: for each port in order, every
address in order, each with the weight that indexing `podWeights` gives. -/
def portMajorProduct (podWeights : Option (GoMap podWeight)) (ips : List String)
    (ports : List Int) : List podEndPoint :=
  ports.flatMap (fun port =>
    ips.map (fun ip => ⟨ip, port, (GoMap.index podWeights ip podWeight.zero).Weight⟩))

/-- Names of the clusters in a collection that declare dynamic (EDS) membership. -/
def edsClusterNames (cds : List Resource) : List String :=
  cds.filterMap (fun res => match res with
    | .cluster c => if c.ClusterDiscoveryType = DiscoveryType.EDS then some c.Name else none
    | _ => none)

/-- Modelled from the spec: the references that the consistency check of the Snapshot
Assembler finds missing (section 4.3 and the glossary; the check, `snapshot.Consistent()`, is
code of the go-control-plane library and is not among the sources).  They are the cluster
names referenced by a route configuration with no cluster of that name, the clusters
declaring dynamic membership with no endpoint assignment of that name, and the route
configuration names referenced by a listener with no route configuration of that name. -/
def missingReferences (r : Resources) : List String :=
  (routeClusterRefs r.rds).filter (fun name => !(clusterNames r.cds).contains name) ++
    ((edsClusterNames r.cds).filter (fun name => !(assignmentNames r.eds).contains name) ++
      (listenerRouteRefs r.lds).filter (fun name => !(routeNames r.rds).contains name))

/-- Modelled from the spec: the consistency check `snapshot.Consistent()` of section 4.3, nil
when every reference resolves and otherwise an error listing the missing references. -/
def Consistent (s : Snapshot) : Option String :=
  match missingReferences s.Resources with
  | [] => none
  | name :: names => some ("missing references: " ++ ", ".intercalate (name :: names))

/-! ## Lemmas on the loops -/

theorem foldl_snoc_eq_map {α β : Type} (f : α → β) (l : List α) (init : List β) :
    l.foldl (fun acc x => acc ++ [f x]) init = init ++ l.map f := by
  induction l generalizing init with
  | nil => simp
  | cons x xs ih => simp [ih]

theorem foldl_addService (entries : List (String × List podEndPoint)) (r : Resources) :
    entries.foldl (fun r e => addService r e.1 e.2) r =
      { eds := r.eds ++ entries.flatMap (fun e =>
          clusterLoadAssignment e.2 (sprintf e.1 "-cluster") "my-region" "my-zone")
        cds := r.cds ++ entries.flatMap (fun e => createCluster (sprintf e.1 "-cluster"))
        rds := r.rds ++ entries.flatMap (fun e =>
          createRoute (sprintf e.1 "-route") (sprintf e.1 "-vhost") (sprintf e.1 "-listener")
            (sprintf e.1 "-cluster"))
        lds := r.lds ++ entries.flatMap (fun e =>
          createListener (sprintf e.1 "-listener") (sprintf e.1 "-cluster")
            (sprintf e.1 "-route")) } := by
  induction entries generalizing r with
  | nil => simp
  | cons e es ih =>
    rw [List.foldl_cons, ih]
    simp [addService, List.flatMap_cons, List.append_assoc]

theorem snapshotResources_eq (entries : List (String × List podEndPoint)) :
    snapshotResources entries =
      { eds := entries.flatMap (fun e =>
          clusterLoadAssignment e.2 (sprintf e.1 "-cluster") "my-region" "my-zone")
        cds := entries.flatMap (fun e => createCluster (sprintf e.1 "-cluster"))
        rds := entries.flatMap (fun e =>
          createRoute (sprintf e.1 "-route") (sprintf e.1 "-vhost") (sprintf e.1 "-listener")
            (sprintf e.1 "-cluster"))
        lds := entries.flatMap (fun e =>
          createListener (sprintf e.1 "-listener") (sprintf e.1 "-cluster")
            (sprintf e.1 "-route")) } := by
  unfold snapshotResources
  rw [foldl_addService]
  simp

theorem clusterLoadAssignment_eq (podEndPoints : List podEndPoint)
    (clusterName region zone : String) :
    clusterLoadAssignment podEndPoints clusterName region zone =
      [Resource.endpoint
        { ClusterName := clusterName
          Endpoints := [{ Locality := { Region := region, Zone := zone }
                          Priority := 0
                          LoadBalancingWeight := 1000
                          LbEndpoints := podEndPoints.map lbEndpoint }] }] := by
  unfold clusterLoadAssignment
  rw [foldl_snoc_eq_map]
  simp [uint32]

theorem uint32_of_nonneg (x : Int) (h0 : 0 ≤ x) (h : isInt32 x) : (uint32 x : Int) = x := by
  unfold isInt32 at h
  unfold uint32
  rw [Int.toNat_of_nonneg (Int.emod_nonneg _ (by norm_num))]
  exact Int.emod_eq_of_lt h0 (by omega)

theorem uint32_of_neg (x : Int) (h0 : x < 0) (h : isInt32 x) :
    (uint32 x : Int) = x + 4294967296 := by
  unfold isInt32 at h
  unfold uint32
  rw [Int.toNat_of_nonneg (Int.emod_nonneg _ (by norm_num))]
  omega

theorem clusterNames_createCluster (entries : List (String × List podEndPoint)) :
    clusterNames (entries.flatMap (fun e => createCluster (sprintf e.1 "-cluster"))) =
      entries.map (fun e => sprintf e.1 "-cluster") := by
  induction entries with
  | nil => rfl
  | cons e es ih =>
    simp only [List.flatMap_cons, List.map_cons, clusterNames, List.filterMap_append] at ih ⊢
    rw [ih]
    rfl

theorem assignmentNames_clusterLoadAssignment (entries : List (String × List podEndPoint)) :
    assignmentNames (entries.flatMap (fun e =>
        clusterLoadAssignment e.2 (sprintf e.1 "-cluster") "my-region" "my-zone")) =
      entries.map (fun e => sprintf e.1 "-cluster") := by
  induction entries with
  | nil => rfl
  | cons e es ih =>
    simp only [List.flatMap_cons, List.map_cons, assignmentNames, List.filterMap_append] at ih ⊢
    rw [ih]
    rfl

theorem routeNames_createRoute (entries : List (String × List podEndPoint)) :
    routeNames (entries.flatMap (fun e =>
        createRoute (sprintf e.1 "-route") (sprintf e.1 "-vhost") (sprintf e.1 "-listener")
          (sprintf e.1 "-cluster"))) =
      entries.map (fun e => sprintf e.1 "-route") := by
  induction entries with
  | nil => rfl
  | cons e es ih =>
    simp only [List.flatMap_cons, List.map_cons, routeNames, List.filterMap_append] at ih ⊢
    rw [ih]
    rfl

theorem routeClusterRefs_createRoute (entries : List (String × List podEndPoint)) :
    routeClusterRefs (entries.flatMap (fun e =>
        createRoute (sprintf e.1 "-route") (sprintf e.1 "-vhost") (sprintf e.1 "-listener")
          (sprintf e.1 "-cluster"))) =
      entries.map (fun e => sprintf e.1 "-cluster") := by
  induction entries with
  | nil => rfl
  | cons e es ih =>
    simp only [List.flatMap_cons, List.map_cons, routeClusterRefs, List.flatMap_append] at ih ⊢
    rw [ih]
    rfl

theorem listenerRouteRefs_createListener (entries : List (String × List podEndPoint)) :
    listenerRouteRefs (entries.flatMap (fun e =>
        createListener (sprintf e.1 "-listener") (sprintf e.1 "-cluster")
          (sprintf e.1 "-route"))) =
      entries.flatMap (fun e => [sprintf e.1 "-route", sprintf e.1 "-route"]) := by
  induction entries with
  | nil => rfl
  | cons e es ih =>
    simp only [List.flatMap_cons, listenerRouteRefs, List.flatMap_append] at ih ⊢
    rw [ih]
    rfl

/-! ## The resource synthesizer -/

/-- C3: for every list of endpoint-map entries (every set of services, every instance
sequence, every iteration order), the four collections built by `GenerateSnapshot` satisfy the
cross-reference invariant: each cluster named by a route is in the cluster collection, each
cluster has a load assignment of the same name in the endpoint collection, and each listener
refers to a route configuration of the route collection. -/
theorem snapshotResources_crossReferenced (entries : List (String × List podEndPoint)) :
    CrossReferenced (snapshotResources entries) := by
  rw [snapshotResources_eq]
  refine ⟨?_, ?_, ?_⟩
  · intro name h
    rw [routeClusterRefs_createRoute] at h
    rw [clusterNames_createCluster]
    exact h
  · intro name h
    rw [clusterNames_createCluster] at h
    rw [assignmentNames_clusterLoadAssignment]
    exact h
  · intro name h
    rw [listenerRouteRefs_createListener, List.mem_flatMap] at h
    obtain ⟨e, he, hname⟩ := h
    rw [routeNames_createRoute, List.mem_map]
    refine ⟨e, he, ?_⟩
    simp only [List.mem_cons, List.mem_singleton, or_self, List.not_mem_nil, or_false] at hname
    exact hname.symm

/-- C7, as amended: `clusterLoadAssignment` returns exactly one `ClusterLoadAssignment` named
`clusterName` with a single locality whose `LbEndpoints` have the length and order of the
input; the i-th one has the i-th instance's address, health status HEALTHY, and as port and
weight the instance's `int32` port and weight converted to `uint32`: the same number when it
is not negative, the number plus `2^32` when it is negative. -/
theorem clusterLoadAssignment_spec (podEndPoints : List podEndPoint)
    (clusterName region zone : String) :
    ∃ lbs : List LbEndpoint,
      clusterLoadAssignment podEndPoints clusterName region zone =
        [Resource.endpoint
          { ClusterName := clusterName
            Endpoints := [{ Locality := { Region := region, Zone := zone }
                            Priority := 0
                            LoadBalancingWeight := 1000
                            LbEndpoints := lbs }] }] ∧
      lbs.length = podEndPoints.length ∧
      ∀ (i : Nat) (p : podEndPoint), podEndPoints[i]? = some p →
        isInt32 p.Port → isInt32 p.Weight →
        ∃ lb, lbs[i]? = some lb ∧
          lb.Address.Address = p.IP ∧
          lb.HealthStatus = HealthStatus.HEALTHY ∧
          (lb.Address.PortValue : Int) = (if 0 ≤ p.Port then p.Port else p.Port + 4294967296) ∧
          (lb.LoadBalancingWeight : Int) =
            (if 0 ≤ p.Weight then p.Weight else p.Weight + 4294967296) := by
  refine ⟨podEndPoints.map lbEndpoint, clusterLoadAssignment_eq _ _ _ _, by simp, ?_⟩
  intro i p hi hport hweight
  refine ⟨lbEndpoint p, by simp [hi], rfl, rfl, ?_, ?_⟩
  · show (uint32 p.Port : Int) = _
    split
    · exact uint32_of_nonneg _ (by assumption) hport
    · exact uint32_of_neg _ (by omega) hport
  · show (uint32 p.Weight : Int) = _
    split
    · exact uint32_of_nonneg _ (by assumption) hweight
    · exact uint32_of_neg _ (by omega) hweight

/-- C7 at the instances of weight 2 and 1: the second `LbEndpoint` has address `10.0.0.2`,
port 8080 and weight 1. -/
theorem clusterLoadAssignment_spec_witness :
    ∃ lbs : List LbEndpoint,
      clusterLoadAssignment [⟨"10.0.0.1", 8080, 2⟩, ⟨"10.0.0.2", 8080, 1⟩] "orders-cluster"
          "my-region" "my-zone" =
        [Resource.endpoint
          { ClusterName := "orders-cluster"
            Endpoints := [{ Locality := { Region := "my-region", Zone := "my-zone" }
                            Priority := 0
                            LoadBalancingWeight := 1000
                            LbEndpoints := lbs }] }] ∧
      lbs.length = 2 ∧
      ∃ lb, lbs[1]? = some lb ∧
        lb.Address.Address = "10.0.0.2" ∧
        lb.HealthStatus = HealthStatus.HEALTHY ∧
        (lb.Address.PortValue : Int) = 8080 ∧
        (lb.LoadBalancingWeight : Int) = 1 := by
  obtain ⟨lbs, h1, h2, h3⟩ :=
    clusterLoadAssignment_spec [⟨"10.0.0.1", 8080, 2⟩, ⟨"10.0.0.2", 8080, 1⟩] "orders-cluster"
      "my-region" "my-zone"
  exact ⟨lbs, h1, h2, h3 1 ⟨"10.0.0.2", 8080, 1⟩ rfl (by decide) (by decide)⟩

/-- C7 as stated fails: for the instance `10.0.0.1:8080` of weight `-1` (the pod label
`weight: "-1"`) the single `LbEndpoint` has load-balancing weight `4294967295`; no
`LbEndpoint` of weight `-1` is produced. -/
theorem clusterLoadAssignment_negative_weight :
    clusterLoadAssignment [⟨"10.0.0.1", 8080, -1⟩] "orders-cluster" "my-region" "my-zone" =
        [Resource.endpoint
          { ClusterName := "orders-cluster"
            Endpoints := [{ Locality := { Region := "my-region", Zone := "my-zone" }
                            Priority := 0
                            LoadBalancingWeight := 1000
                            LbEndpoints := [{ Address := ⟨"10.0.0.1", Protocol.TCP, 8080⟩
                                              HealthStatus := HealthStatus.HEALTHY
                                              LoadBalancingWeight := 4294967295 }] }] }] ∧
      ¬ ∃ lb : LbEndpoint,
        clusterLoadAssignment [⟨"10.0.0.1", 8080, -1⟩] "orders-cluster" "my-region" "my-zone" =
          [Resource.endpoint
            { ClusterName := "orders-cluster"
              Endpoints := [{ Locality := { Region := "my-region", Zone := "my-zone" }
                              Priority := 0
                              LoadBalancingWeight := 1000
                              LbEndpoints := [lb] }] }] ∧
        (lb.LoadBalancingWeight : Int) = -1 := by
  refine ⟨by decide, ?_⟩
  rintro ⟨lb, -, hw⟩
  have : (0 : Int) ≤ (lb.LoadBalancingWeight : Int) := Int.ofNat_nonneg _
  omega

/-- C8: for every service of the endpoint map whose instance sequence is empty, the cluster
collection built by `GenerateSnapshot` contains the EDS cluster `<service>-cluster` and the
endpoint collection contains the load assignment `<service>-cluster` whose single locality
has no `LbEndpoints`. -/
theorem snapshotResources_zero_endpoints (entries : List (String × List podEndPoint))
    (service : String) (h : (service, []) ∈ entries) :
    Resource.cluster
        { Name := service ++ "-cluster"
          LbPolicy := LbPolicy.ROUND_ROBIN
          ClusterDiscoveryType := DiscoveryType.EDS
          EdsConfig := ConfigSource.Ads } ∈ (snapshotResources entries).cds ∧
      Resource.endpoint
        { ClusterName := service ++ "-cluster"
          Endpoints := [{ Locality := { Region := "my-region", Zone := "my-zone" }
                          Priority := 0
                          LoadBalancingWeight := 1000
                          LbEndpoints := [] }] } ∈ (snapshotResources entries).eds := by
  rw [snapshotResources_eq]
  constructor
  · simp only [List.mem_flatMap, createCluster, List.mem_singleton]
    exact ⟨_, h, rfl⟩
  · simp only [List.mem_flatMap, clusterLoadAssignment_eq, List.mem_singleton]
    exact ⟨_, h, rfl⟩

/-- C8 at a map with the services `orders` (one instance) and `idle` (no instance). -/
theorem snapshotResources_zero_endpoints_witness :
    Resource.cluster
        { Name := "idle" ++ "-cluster"
          LbPolicy := LbPolicy.ROUND_ROBIN
          ClusterDiscoveryType := DiscoveryType.EDS
          EdsConfig := ConfigSource.Ads } ∈
        (snapshotResources [("orders", [⟨"10.0.0.1", 8080, 1⟩]), ("idle", [])]).cds ∧
      Resource.endpoint
        { ClusterName := "idle" ++ "-cluster"
          Endpoints := [{ Locality := { Region := "my-region", Zone := "my-zone" }
                          Priority := 0
                          LoadBalancingWeight := 1000
                          LbEndpoints := [] }] } ∈
        (snapshotResources [("orders", [⟨"10.0.0.1", 8080, 1⟩]), ("idle", [])]).eds :=
  snapshotResources_zero_endpoints [("orders", [⟨"10.0.0.1", 8080, 1⟩]), ("idle", [])] "idle"
    (by decide)

/-- C9: the route collection built by `GenerateSnapshot` holds, for every service `s` of the
endpoint map and in the order of the entries, the route configuration named `s-route` with
exactly one virtual host, named `s-vhost`, whose domains are exactly `[s-listener]` and whose
routes are exactly one route with the empty prefix to the cluster `s-cluster`; and that is
what `createRoute` returns for the names derived from `s`. -/
theorem snapshotResources_routes (entries : List (String × List podEndPoint)) (s : String) :
    (snapshotResources entries).rds =
        entries.map (fun e =>
          Resource.route
            { Name := e.1 ++ "-route"
              VirtualHosts := [{ Name := e.1 ++ "-vhost"
                                 Domains := [e.1 ++ "-listener"]
                                 Routes := [{ Prefix := "", Cluster := e.1 ++ "-cluster" }] }] }) ∧
      createRoute (sprintf s "-route") (sprintf s "-vhost") (sprintf s "-listener")
          (sprintf s "-cluster") =
        [Resource.route
          { Name := s ++ "-route"
            VirtualHosts := [{ Name := s ++ "-vhost"
                               Domains := [s ++ "-listener"]
                               Routes := [{ Prefix := "", Cluster := s ++ "-cluster" }] }] }] := by
  refine ⟨?_, rfl⟩
  rw [snapshotResources_eq]
  induction entries with
  | nil => rfl
  | cons e es ih =>
    simp only [List.flatMap_cons, List.map_cons] at ih ⊢
    rw [ih]
    rfl


theorem GoMap_get_set_self {V : Type} (m : GoMap V) (k : String) (v : V) :
    GoMap.get? (GoMap.set m k v) k = some v := by
  induction m with
  | nil => simp [GoMap.set, GoMap.get?]
  | cons e es ih =>
    obtain ⟨a, b⟩ := e
    by_cases h : a = k
    · simp [GoMap.set, GoMap.get?, h]
    · simp [GoMap.set, GoMap.get?, h, ih]

theorem GoMap_get_set_other {V : Type} (m : GoMap V) (k k' : String) (v : V) (hk : k' ≠ k) :
    GoMap.get? (GoMap.set m k v) k' = GoMap.get? m k' := by
  induction m with
  | nil => simp [GoMap.set, GoMap.get?, Ne.symm hk]
  | cons e es ih =>
    obtain ⟨a, b⟩ := e
    by_cases h : a = k
    · subst h
      simp [GoMap.set, GoMap.get?, Ne.symm hk]
    · by_cases h2 : a = k'
      · subst h2
        simp [GoMap.set, GoMap.get?, h]
      · simp [GoMap.set, GoMap.get?, h, h2, ih]

theorem collectSubsets_foldl (subsets : List EndpointSubset) (acc : List String × List Int) :
    subsets.foldl
        (fun acc subset =>
          (subset.Addresses.foldl (fun ips address => ips ++ [address]) acc.1,
           subset.Ports.foldl (fun ports port => ports ++ [port]) acc.2))
        acc =
      (acc.1 ++ subsets.flatMap (fun subset => subset.Addresses),
       acc.2 ++ subsets.flatMap (fun subset => subset.Ports)) := by
  induction subsets generalizing acc with
  | nil => simp
  | cons x xs ih =>
    rw [List.foldl_cons, ih]
    have h1 := foldl_snoc_eq_map (fun a : String => a) x.Addresses acc.1
    have h2 := foldl_snoc_eq_map (fun a : Int => a) x.Ports acc.2
    simp only [List.map_id'] at h1 h2
    simp [h1, h2, List.flatMap_cons, List.append_assoc]

theorem collectSubsets_eq (subsets : List EndpointSubset) :
    collectSubsets subsets =
      (subsets.flatMap (fun subset => subset.Addresses),
       subsets.flatMap (fun subset => subset.Ports)) := by
  unfold collectSubsets
  rw [collectSubsets_foldl]
  simp

theorem buildPodEndPoints_foldl (podWeights : Option (GoMap podWeight)) (ips : List String)
    (ports : List Int) (init : List podEndPoint) :
    ports.foldl
        (fun acc port =>
          ips.foldl
            (fun acc ip =>
              acc ++ [⟨ip, port, (GoMap.index podWeights ip podWeight.zero).Weight⟩])
            acc)
        init =
      init ++ portMajorProduct podWeights ips ports := by
  induction ports generalizing init with
  | nil => simp [portMajorProduct]
  | cons port rest ih =>
    rw [List.foldl_cons, ih, foldl_snoc_eq_map]
    simp [portMajorProduct, List.flatMap_cons, List.append_assoc]

theorem buildPodEndPoints_eq (podWeights : Option (GoMap podWeight)) (ips : List String)
    (ports : List Int) :
    buildPodEndPoints podWeights ips ports = portMajorProduct podWeights ips ports := by
  unfold buildPodEndPoints
  rw [buildPodEndPoints_foldl]
  simp

theorem portMajorProduct_length (podWeights : Option (GoMap podWeight)) (ips : List String)
    (ports : List Int) :
    (portMajorProduct podWeights ips ports).length = ips.length * ports.length := by
  induction ports with
  | nil => simp [portMajorProduct]
  | cons port rest ih =>
    simp only [portMajorProduct, List.flatMap_cons, List.length_append, List.length_map,
      List.length_cons] at ih ⊢
    rw [ih, Nat.mul_succ, Nat.add_comm]


theorem fillInner_get (podWeights : Option (GoMap podWeight)) (items : List Endpoints)
    (s k : String) (m : GoMap (List podEndPoint)) :
    GoMap.get?
        (items.foldl
          (fun m endPoint =>
            if endPoint.Name = s then GoMap.set m s (endPointInstances podWeights endPoint)
            else m)
          m) k =
      if k = s then
        items.foldl
          (fun acc o => if o.Name = s then some (endPointInstances podWeights o) else acc)
          (GoMap.get? m k)
      else GoMap.get? m k := by
  induction items generalizing m with
  | nil => simp
  | cons o rest ih =>
    rw [List.foldl_cons, ih, List.foldl_cons]
    by_cases hk : k = s
    · subst hk
      by_cases ho : o.Name = k
      · simp [ho, GoMap_get_set_self]
      · simp [ho]
    · by_cases ho : o.Name = s
      · simp [hk, ho, GoMap_get_set_other _ _ _ _ hk]
      · simp [hk, ho]

theorem foldl_last_unchanged (podWeights : Option (GoMap podWeight)) (post : List Endpoints)
    (s : String) (init : Option (List podEndPoint)) (h : ∀ o ∈ post, o.Name ≠ s) :
    post.foldl
        (fun acc o => if o.Name = s then some (endPointInstances podWeights o) else acc)
        init = init := by
  induction post generalizing init with
  | nil => rfl
  | cons o rest ih =>
    have ho : o.Name ≠ s := h o (List.mem_cons_self _ _)
    rw [List.foldl_cons, if_neg ho]
    exact ih init (fun o1 h1 => h o1 (List.mem_cons_of_mem _ h1))

theorem foldl_last_named (podWeights : Option (GoMap podWeight)) (pre post : List Endpoints)
    (o : Endpoints) (init : Option (List podEndPoint)) (h : ∀ o1 ∈ post, o1.Name ≠ o.Name) :
    (pre ++ o :: post).foldl
        (fun acc o1 => if o1.Name = o.Name then some (endPointInstances podWeights o1) else acc)
        init = some (endPointInstances podWeights o) := by
  rw [List.foldl_append, List.foldl_cons, if_pos rfl]
  exact foldl_last_unchanged podWeights post o.Name _ h

theorem fillEndPoints_get (podWeights : Option (GoMap podWeight)) (items : List Endpoints)
    (serviceNames : List String) (k : String) (v : List podEndPoint)
    (m : GoMap (List podEndPoint))
    (hv : ∀ init : Option (List podEndPoint),
      items.foldl
        (fun acc o => if o.Name = k then some (endPointInstances podWeights o) else acc)
        init = some v) :
    GoMap.get?
        (serviceNames.foldl
          (fun m serviceName =>
            items.foldl
              (fun m endPoint =>
                if endPoint.Name = serviceName then
                  GoMap.set m serviceName (endPointInstances podWeights endPoint)
                else m)
              m)
          m) k =
      if k ∈ serviceNames then some v else GoMap.get? m k := by
  induction serviceNames generalizing m with
  | nil => simp
  | cons s rest ih =>
    rw [List.foldl_cons, ih, fillInner_get]
    by_cases hrest : k ∈ rest
    · simp [hrest]
    · by_cases hk : k = s
      · subst hk
        simp [hv]
      · simp [hrest, hk]

/-- C10, as amended: for every requested service name, the instance sequence that
`getK8sEndPoints` stores is computed from the last registry endpoint object of that name in
listing order (an earlier object of the same name is overwritten); it is the full cross
product of all addresses collected across all of that object's subsets with all ports
collected across all of its subsets, in port-major order, so its length is
(total addresses) x (total ports). -/
theorem getK8sEndPoints_cross_product (k : K8s) (serviceNames : List String)
    (pre post : List Endpoints) (o : Endpoints)
    (hconfig : k.configErr = none) (hclient : k.clientErr = none)
    (hitems : k.endPoints = some (pre ++ o :: post))
    (hlast : ∀ o1 ∈ post, o1.Name ≠ o.Name)
    (hreq : o.Name ∈ serviceNames) :
    ∃ r, getK8sEndPoints k serviceNames = .ret r ∧
      GoMap.get? r.k8sEndPoints o.Name =
        some (portMajorProduct (getPodMetadata k)
          (o.Subsets.flatMap (fun subset => subset.Addresses))
          (o.Subsets.flatMap (fun subset => subset.Ports))) ∧
      (portMajorProduct (getPodMetadata k)
          (o.Subsets.flatMap (fun subset => subset.Addresses))
          (o.Subsets.flatMap (fun subset => subset.Ports))).length =
        (o.Subsets.flatMap (fun subset => subset.Addresses)).length *
          (o.Subsets.flatMap (fun subset => subset.Ports)).length := by
  obtain ⟨s, rest, hs⟩ : ∃ s rest, serviceNames = s :: rest := by
    cases serviceNames with
    | nil => simp at hreq
    | cons s rest => exact ⟨s, rest, rfl⟩
  refine ⟨⟨fillEndPoints (getPodMetadata k) (pre ++ o :: post) serviceNames, none,
    match k.endPointsErr with
    | some _ => ["Received error while trying to get EndPoints"]
    | none => []⟩, ?_, ?_, portMajorProduct_length _ _ _⟩
  · subst hs
    simp [getK8sEndPoints, hconfig, hclient, hitems]
  · show GoMap.get? (fillEndPoints _ _ _) o.Name = _
    unfold fillEndPoints
    rw [fillEndPoints_get (getPodMetadata k) (pre ++ o :: post) serviceNames o.Name
      (endPointInstances (getPodMetadata k) o) []
      (fun init => foldl_last_named _ pre post o init hlast)]
    rw [if_pos hreq]
    simp [endPointInstances, collectSubsets_eq, buildPodEndPoints_eq]


theorem getK8sEndPoints_err (k : K8s) (serviceNames : List String) (r : EndPointsResult)
    (h : getK8sEndPoints k serviceNames = .ret r) : r.err = none := by
  unfold getK8sEndPoints at h
  cases hc : k.configErr with
  | some e => simp [hc] at h
  | none =>
    cases hcl : k.clientErr with
    | some e => simp [hc, hcl] at h
    | none =>
      cases serviceNames with
      | nil =>
        simp only [hc, hcl, Outcome.ret.injEq] at h
        rw [← h]
      | cons s rest =>
        cases hi : k.endPoints with
        | none => simp [hc, hcl, hi] at h
        | some items =>
          simp only [hc, hcl, hi, Outcome.ret.injEq] at h
          rw [← h]

theorem runEvents_disarmed (es : List Event) (s : CbState) (h : s.cb.Signal = none) :
    (runEvents s es).length = es.length ∧
      ∀ o ∈ runEvents s es, ∃ s2, o = .ret s2 ∧ s2.cb.Signal = none ∧ s2.closed = s.closed := by
  induction es generalizing s with
  | nil => simp [runEvents]
  | cons e rest ih =>
    have hstep : ∃ s1, e.handle s = .ret s1 ∧ s1.cb.Signal = none ∧ s1.closed = s.closed := by
      cases e
      · exact ⟨{ s with cb := { s.cb with Requests := incr s.cb.Requests } },
          by simp [Event.handle, OnStreamRequest, closeSignal, h], h, rfl⟩
      · exact ⟨{ s with cb := { s.cb with Fetches := incr s.cb.Fetches } },
          by simp [Event.handle, OnFetchRequest, closeSignal, h], h, rfl⟩
    obtain ⟨s1, h1, hsig, hclosed⟩ := hstep
    obtain ⟨hlen, hall⟩ := ih s1 hsig
    simp only [runEvents, h1]
    refine ⟨by simp [hlen], ?_⟩
    intro o ho
    rcases List.mem_cons.mp ho with rfl | ho
    · exact ⟨s1, rfl, hsig, hclosed⟩
    · obtain ⟨s2, h2, h3, h4⟩ := hall o ho
      exact ⟨s2, h2, h3, h4.trans hclosed⟩

theorem handle_armed (e : Event) (s : CbState) (ch : Nat) (h : s.cb.Signal = some ch)
    (hopen : ch ∉ s.closed) :
    ∃ s1, e.handle s = .ret s1 ∧ s1.cb.Signal = none ∧ s1.closed = s.closed ++ [ch] := by
  cases e
  · exact ⟨{ cb := { s.cb with Requests := incr s.cb.Requests, Signal := none },
             closed := s.closed ++ [ch] },
      by simp [Event.handle, OnStreamRequest, closeSignal, h, hopen], rfl, rfl⟩
  · exact ⟨{ cb := { s.cb with Fetches := incr s.cb.Fetches, Signal := none },
             closed := s.closed ++ [ch] },
      by simp [Event.handle, OnFetchRequest, closeSignal, h, hopen], rfl, rfl⟩

/-- C6 (signal-once), as amended: from a `Callbacks` state whose `Signal` is armed with a
channel `ch` that has not been closed yet, for every non-empty sequence of `OnStreamRequest` /
`OnFetchRequest` events, the first event returns, closes `ch` and sets `Signal` to nil; every
later event returns with `Signal` nil and closes nothing more, so `ch` is closed exactly once.
From a state whose `Signal` is nil every event returns, leaves `Signal` nil and closes
nothing. -/
theorem signal_once (s : CbState) (e : Event) (es : List Event) :
    (∀ ch : Nat, s.cb.Signal = some ch → ch ∉ s.closed →
      ∃ (s1 : CbState) (rest : List (Outcome CbState)),
        e.handle s = .ret s1 ∧ s1.cb.Signal = none ∧ s1.closed = s.closed ++ [ch] ∧
        List.count ch s1.closed = 1 ∧
        runEvents s (e :: es) = .ret s1 :: rest ∧ rest.length = es.length ∧
        ∀ o ∈ rest, ∃ s2, o = .ret s2 ∧ s2.cb.Signal = none ∧ s2.closed = s1.closed) ∧
    (s.cb.Signal = none →
      (runEvents s (e :: es)).length = es.length + 1 ∧
      ∀ o ∈ runEvents s (e :: es),
        ∃ s2, o = .ret s2 ∧ s2.cb.Signal = none ∧ s2.closed = s.closed) := by
  constructor
  · intro ch harmed hopen
    obtain ⟨s1, h1, hsig, hclosed⟩ := handle_armed e s ch harmed hopen
    obtain ⟨hlen, hall⟩ := runEvents_disarmed es s1 hsig
    refine ⟨s1, runEvents s1 es, h1, hsig, hclosed, ?_, ?_, hlen, hall⟩
    · rw [hclosed, List.count_append, List.count_eq_zero.mpr hopen]
      simp
    · simp [runEvents, h1]
  · intro hnil
    obtain ⟨hlen, hall⟩ := runEvents_disarmed (e :: es) s hnil
    exact ⟨by simpa using hlen, hall⟩

/-- C6 at a signal armed with channel 7 and the events stream request, fetch request, stream
request; and at a disarmed state with the same events. -/
theorem signal_once_witness :
    (∃ (s1 : CbState) (rest : List (Outcome CbState)),
        Event.streamRequest.handle ⟨⟨some 7, 0, 0⟩, []⟩ = .ret s1 ∧ s1.cb.Signal = none ∧
        s1.closed = [] ++ [7] ∧ List.count 7 s1.closed = 1 ∧
        runEvents ⟨⟨some 7, 0, 0⟩, []⟩
          (Event.streamRequest :: [Event.fetchRequest, Event.streamRequest]) =
          .ret s1 :: rest ∧
        rest.length = [Event.fetchRequest, Event.streamRequest].length ∧
        ∀ o ∈ rest, ∃ s2, o = .ret s2 ∧ s2.cb.Signal = none ∧ s2.closed = s1.closed) ∧
    ((runEvents ⟨⟨none, 0, 0⟩, [7]⟩
          (Event.streamRequest :: [Event.fetchRequest, Event.streamRequest])).length =
        [Event.fetchRequest, Event.streamRequest].length + 1 ∧
      ∀ o ∈ runEvents ⟨⟨none, 0, 0⟩, [7]⟩
          (Event.streamRequest :: [Event.fetchRequest, Event.streamRequest]),
        ∃ s2, o = .ret s2 ∧ s2.cb.Signal = none ∧ s2.closed = [7]) :=
  ⟨(signal_once ⟨⟨some 7, 0, 0⟩, []⟩ Event.streamRequest
      [Event.fetchRequest, Event.streamRequest]).1 7 rfl (by decide),
    (signal_once ⟨⟨none, 0, 0⟩, [7]⟩ Event.streamRequest
      [Event.fetchRequest, Event.streamRequest]).2 rfl⟩


/-- C6 as stated fails: at a `Callbacks` state whose `Signal` is non-nil but holds the
already closed channel 7, the first event, stream request or fetch request, panics in `close`;
it does not return with `Signal` nil and it closes nothing. -/
theorem signal_once_closed_channel :
    Event.streamRequest.handle ⟨⟨some 7, 0, 0⟩, [7]⟩ = .panic "close of closed channel" ∧
    Event.fetchRequest.handle ⟨⟨some 7, 0, 0⟩, [7]⟩ = .panic "close of closed channel" ∧
    runEvents ⟨⟨some 7, 0, 0⟩, [7]⟩ [Event.streamRequest, Event.fetchRequest] =
      [.panic "close of closed channel"] ∧
    ¬ ∃ s1 : CbState,
      Event.streamRequest.handle ⟨⟨some 7, 0, 0⟩, [7]⟩ = .ret s1 ∧ s1.cb.Signal = none := by
  refine ⟨by decide, by decide, by decide, ?_⟩
  rintro ⟨s1, h, -⟩
  have hp : Event.streamRequest.handle ⟨⟨some 7, 0, 0⟩, [7]⟩ =
      .panic "close of closed channel" := by decide
  rw [hp] at h
  exact Outcome.noConfusion h

/-- C10 at the registry with the objects `payments` and `orders`, the latter with the subsets
`{10.0.0.1 | 8080}` and `{10.0.0.2 | 9090}`: four instances are stored for `orders`, among
them `10.0.0.2:8080` and `10.0.0.1:9090`, whose address and port come from different
subsets. -/
theorem getK8sEndPoints_cross_product_witness :
    ∃ r,
      getK8sEndPoints
          { configErr := none, clientErr := none,
            endPoints := some ([⟨"payments", [⟨["10.0.1.1"], [7070]⟩]⟩] ++
              ⟨"orders", [⟨["10.0.0.1"], [8080]⟩, ⟨["10.0.0.2"], [9090]⟩]⟩ :: []),
            endPointsErr := none,
            pods := [⟨[("weight", "2")], "10.0.0.1"⟩, ⟨[], "10.0.0.2"⟩], podsErr := none }
          ["orders"] = .ret r ∧
        GoMap.get? r.k8sEndPoints "orders" =
          some [⟨"10.0.0.1", 8080, 2⟩, ⟨"10.0.0.2", 8080, 1⟩, ⟨"10.0.0.1", 9090, 2⟩,
            ⟨"10.0.0.2", 9090, 1⟩] ∧
        [(⟨"10.0.0.1", 8080, 2⟩ : podEndPoint), ⟨"10.0.0.2", 8080, 1⟩, ⟨"10.0.0.1", 9090, 2⟩,
            ⟨"10.0.0.2", 9090, 1⟩].length = 2 * 2 := by
  obtain ⟨r, h1, h2, -⟩ :=
    getK8sEndPoints_cross_product
      { configErr := none, clientErr := none,
        endPoints := some ([⟨"payments", [⟨["10.0.1.1"], [7070]⟩]⟩] ++
          ⟨"orders", [⟨["10.0.0.1"], [8080]⟩, ⟨["10.0.0.2"], [9090]⟩]⟩ :: []),
        endPointsErr := none,
        pods := [⟨[("weight", "2")], "10.0.0.1"⟩, ⟨[], "10.0.0.2"⟩], podsErr := none }
      ["orders"] [⟨"payments", [⟨["10.0.1.1"], [7070]⟩]⟩] []
      ⟨"orders", [⟨["10.0.0.1"], [8080]⟩, ⟨["10.0.0.2"], [9090]⟩]⟩
      rfl rfl rfl (by simp) (by simp)
  refine ⟨r, h1, ?_, by decide⟩
  rw [h2]
  decide

/-- C10 as stated fails: with two registry endpoint objects named `orders` (one per
namespace), the first with address `10.0.0.1` and the second with address `10.0.0.2`, both on
port 8080, the sequence stored for `orders` is not the cross product of the first object. -/
theorem getK8sEndPoints_same_name_overwrites :
    ∃ o ∈ [(⟨"orders", [⟨["10.0.0.1"], [8080]⟩]⟩ : Endpoints),
        ⟨"orders", [⟨["10.0.0.2"], [8080]⟩]⟩],
      o.Name ∈ ["orders"] ∧
      ∃ r,
        getK8sEndPoints
            { configErr := none, clientErr := none,
              endPoints := some [⟨"orders", [⟨["10.0.0.1"], [8080]⟩]⟩,
                ⟨"orders", [⟨["10.0.0.2"], [8080]⟩]⟩],
              endPointsErr := none,
              pods := [⟨[], "10.0.0.1"⟩, ⟨[], "10.0.0.2"⟩], podsErr := none }
            ["orders"] = .ret r ∧
          r.k8sEndPoints = [("orders", [⟨"10.0.0.2", 8080, 1⟩])] ∧
          GoMap.get? r.k8sEndPoints o.Name ≠
            some (portMajorProduct
              (getPodMetadata
                { configErr := none, clientErr := none,
                  endPoints := some [⟨"orders", [⟨["10.0.0.1"], [8080]⟩]⟩,
                    ⟨"orders", [⟨["10.0.0.2"], [8080]⟩]⟩],
                  endPointsErr := none,
                  pods := [⟨[], "10.0.0.1"⟩, ⟨[], "10.0.0.2"⟩], podsErr := none })
              (o.Subsets.flatMap (fun subset => subset.Addresses))
              (o.Subsets.flatMap (fun subset => subset.Ports))) :=
  ⟨⟨"orders", [⟨["10.0.0.1"], [8080]⟩]⟩, by decide, by decide,
    ⟨[("orders", [⟨"10.0.0.2", 8080, 1⟩])], none, []⟩, by decide, rfl, by decide⟩

/-! ## Error handling and default weights -/

/-- The branch of lines 307-310 of `GenerateSnapshot`: if the consistency check of the snapshot
cache reports an error, the inconsistency is logged and the snapshot is returned with a nil
error. -/
theorem GenerateSnapshot_inconsistent_branch (lib : SnapshotCache) (order : RangeOrder)
    (k : K8s) (version : String) (services : List String) (r : EndPointsResult)
    (snapshot : Snapshot) (e : String)
    (hget : getK8sEndPoints k services = .ret r)
    (hnew : lib.NewSnapshot version (snapshotResources (order.visit r.k8sEndPoints)) =
      .ok snapshot)
    (hcheck : lib.Consistent snapshot = some e) :
    GenerateSnapshot lib order k version services =
      .ret ⟨some snapshot, none, r.logs ++ ["Snapshot inconsistency"]⟩ := by
  have herr := getK8sEndPoints_err k services r hget
  simp [GenerateSnapshot, hget, herr, hnew, hcheck]

theorem edsClusterNames_createCluster (entries : List (String × List podEndPoint)) :
    edsClusterNames (entries.flatMap (fun e => createCluster (sprintf e.1 "-cluster"))) =
      entries.map (fun e => sprintf e.1 "-cluster") := by
  induction entries with
  | nil => rfl
  | cons e es ih =>
    simp only [List.flatMap_cons, List.map_cons, edsClusterNames, List.filterMap_append] at ih ⊢
    rw [ih]
    rfl

theorem filter_not_contains_eq_nil (l m : List String) (h : ∀ name ∈ l, name ∈ m) :
    l.filter (fun name => !m.contains name) = [] := by
  rw [List.filter_eq_nil_iff]
  intro name hname
  simp [h name hname]

theorem missingReferences_snapshotResources (entries : List (String × List podEndPoint)) :
    missingReferences (snapshotResources entries) = [] := by
  rw [snapshotResources_eq]
  unfold missingReferences
  simp only []
  rw [routeClusterRefs_createRoute, clusterNames_createCluster, edsClusterNames_createCluster,
    assignmentNames_clusterLoadAssignment, listenerRouteRefs_createListener,
    routeNames_createRoute]
  rw [filter_not_contains_eq_nil _ _ (fun _ h => h),
    filter_not_contains_eq_nil
      (entries.flatMap (fun e => [sprintf e.1 "-route", sprintf e.1 "-route"]))
      (entries.map (fun e => sprintf e.1 "-route"))]
  · rfl
  · intro name h
    rw [List.mem_flatMap] at h
    obtain ⟨e, he, hname⟩ := h
    rw [List.mem_map]
    refine ⟨e, he, ?_⟩
    simp only [List.mem_cons, List.mem_singleton, or_self, List.not_mem_nil, or_false] at hname
    exact hname.symm

theorem Consistent_snapshotResources (version : String)
    (entries : List (String × List podEndPoint)) :
    Consistent ⟨version, snapshotResources entries⟩ = none := by
  unfold Consistent
  rw [missingReferences_snapshotResources]

theorem getK8sEndPoints_logs (k : K8s) (serviceNames : List String) (r : EndPointsResult)
    (h : getK8sEndPoints k serviceNames = .ret r) :
    ∀ line ∈ r.logs, line = "Received error while trying to get EndPoints" := by
  have hlogs : ∀ line ∈ (match k.endPointsErr with
      | some _ => ["Received error while trying to get EndPoints"]
      | none => ([] : List String)), line = "Received error while trying to get EndPoints" := by
    intro line hline
    cases hk : k.endPointsErr with
    | none => simp [hk] at hline
    | some e => simpa [hk] using hline
  unfold getK8sEndPoints at h
  cases hc : k.configErr with
  | some e => simp [hc] at h
  | none =>
    cases hcl : k.clientErr with
    | some e => simp [hc, hcl] at h
    | none =>
      cases serviceNames with
      | nil =>
        simp only [hc, hcl, Outcome.ret.injEq] at h
        rw [← h]
        exact hlogs
      | cons s rest =>
        cases hi : k.endPoints with
        | none => simp [hc, hcl, hi] at h
        | some items =>
          simp only [hc, hcl, hi, Outcome.ret.injEq] at h
          rw [← h]
          exact hlogs

/-- C1: with the consistency check of the spec, `GenerateSnapshot` never hands back a snapshot
that fails the check.  Whenever it returns, what it returns is the assembled snapshot with a
nil error, that snapshot passes the check, and no inconsistency is logged; so in no run does
the check fail on the assembled snapshot while a snapshot is handed back. -/
theorem GenerateSnapshot_consistent (order : RangeOrder) (k : K8s) (version : String)
    (services : List String) (r : SnapshotResult)
    (h : GenerateSnapshot (cacheWith Consistent) order k version services = .ret r) :
    ∃ (m : EndPointsResult) (s : Snapshot),
      getK8sEndPoints k services = .ret m ∧
      s = ⟨version, snapshotResources (order.visit m.k8sEndPoints)⟩ ∧
      r.snapshot = some s ∧ r.err = none ∧ Consistent s = none ∧
      "Snapshot inconsistency" ∉ r.logs := by
  unfold GenerateSnapshot at h
  cases hget : getK8sEndPoints k services with
  | panic msg => simp [hget] at h
  | ret m =>
    have herr := getK8sEndPoints_err k services m hget
    have hlogs := getK8sEndPoints_logs k services m hget
    simp only [hget, herr, cacheWith, Consistent_snapshotResources, Outcome.ret.injEq] at h
    refine ⟨m, ⟨version, snapshotResources (order.visit m.k8sEndPoints)⟩, rfl, rfl, ?_, ?_,
      Consistent_snapshotResources _ _, ?_⟩
    · rw [← h]
    · rw [← h]
    · rw [← h]
      intro hmem
      have := hlogs _ hmem
      exact absurd this (by decide)

/-- C1 at the registry with the service `orders` (one instance): the snapshot of version `v1`
is returned with a nil error, passes the check, and nothing is logged. -/
theorem GenerateSnapshot_consistent_witness :
    GenerateSnapshot (cacheWith Consistent) RangeOrder.stored
        { configErr := none, clientErr := none,
          endPoints := some [⟨"orders", [⟨["10.0.0.1"], [8080]⟩]⟩], endPointsErr := none,
          pods := [⟨[], "10.0.0.1"⟩], podsErr := none }
        "v1" ["orders"] =
      .ret ⟨some ⟨"v1", snapshotResources [("orders", [⟨"10.0.0.1", 8080, 1⟩])]⟩, none, []⟩ ∧
    ∃ (m : EndPointsResult) (s : Snapshot),
      getK8sEndPoints
          { configErr := none, clientErr := none,
            endPoints := some [⟨"orders", [⟨["10.0.0.1"], [8080]⟩]⟩], endPointsErr := none,
            pods := [⟨[], "10.0.0.1"⟩], podsErr := none }
          ["orders"] = .ret m ∧
      s = ⟨"v1", snapshotResources (RangeOrder.stored.visit m.k8sEndPoints)⟩ ∧
      (⟨some ⟨"v1", snapshotResources [("orders", [⟨"10.0.0.1", 8080, 1⟩])]⟩, none, []⟩ :
        SnapshotResult).snapshot = some s ∧
      (⟨some ⟨"v1", snapshotResources [("orders", [⟨"10.0.0.1", 8080, 1⟩])]⟩, none, []⟩ :
        SnapshotResult).err = none ∧
      Consistent s = none ∧
      "Snapshot inconsistency" ∉
        (⟨some ⟨"v1", snapshotResources [("orders", [⟨"10.0.0.1", 8080, 1⟩])]⟩, none, []⟩ :
          SnapshotResult).logs :=
  ⟨by decide,
    GenerateSnapshot_consistent RangeOrder.stored
      { configErr := none, clientErr := none,
        endPoints := some [⟨"orders", [⟨["10.0.0.1"], [8080]⟩]⟩], endPointsErr := none,
        pods := [⟨[], "10.0.0.1"⟩], podsErr := none }
      "v1" ["orders"]
      ⟨some ⟨"v1", snapshotResources [("orders", [⟨"10.0.0.1", 8080, 1⟩])]⟩, none, []⟩
      (by decide)⟩

/-- C2: when the endpoint listing call fails (the client returns an empty list and an error),
`getK8sEndPoints` logs the error and returns an empty map with a nil error, and
`GenerateSnapshot` returns a snapshot with four empty collections and a nil error. -/
theorem getK8sEndPoints_listing_failure :
    getK8sEndPoints
        { configErr := none, clientErr := none, endPoints := some [],
          endPointsErr := some "connection refused", pods := [],
          podsErr := some "connection refused" }
        ["orders"] =
      .ret ⟨[], none, ["Received error while trying to get EndPoints"]⟩ ∧
    GenerateSnapshot (cacheWith (fun _ => none)) RangeOrder.stored
        { configErr := none, clientErr := none, endPoints := some [],
          endPointsErr := some "connection refused", pods := [],
          podsErr := some "connection refused" }
        "v1" ["orders"] =
      .ret ⟨some ⟨"v1", ⟨[], [], [], []⟩⟩, none,
        ["Received error while trying to get EndPoints"]⟩ := by
  constructor <;> decide

/-- C4: for the pod `10.0.0.1` labelled `weight: "abc"` (not an integer) `getPodMetadata`
records weight 0, not the default 1; the entry of the pod `10.0.0.2` labelled `weight: "3"`
is 3. -/
theorem getPodMetadata_malformed_weight :
    (Atoi "abc").2 ≠ none ∧
    getPodMetadata
        { configErr := none, clientErr := none, endPoints := some [], endPointsErr := none,
          pods := [⟨[("weight", "abc")], "10.0.0.1"⟩, ⟨[("weight", "3")], "10.0.0.2"⟩],
          podsErr := none } =
      some [("10.0.0.1", ⟨"10.0.0.1", 0⟩), ("10.0.0.2", ⟨"10.0.0.2", 3⟩)] := by
  constructor <;> decide

/-- C5: the instance `10.0.0.1:8080` of the service `orders` gets weight 0, not 1, when no pod
has the address `10.0.0.1` and when the pod listing fails; it gets weight 1 when the pod of
that address carries no weight label. -/
theorem getK8sEndPoints_missing_weight :
    getK8sEndPoints
        { configErr := none, clientErr := none,
          endPoints := some [⟨"orders", [⟨["10.0.0.1"], [8080]⟩]⟩], endPointsErr := none,
          pods := [⟨[], "10.0.0.9"⟩], podsErr := none }
        ["orders"] =
      .ret ⟨[("orders", [⟨"10.0.0.1", 8080, 0⟩])], none, []⟩ ∧
    getK8sEndPoints
        { configErr := none, clientErr := none,
          endPoints := some [⟨"orders", [⟨["10.0.0.1"], [8080]⟩]⟩], endPointsErr := none,
          pods := [], podsErr := some "pods is forbidden" }
        ["orders"] =
      .ret ⟨[("orders", [⟨"10.0.0.1", 8080, 0⟩])], none, []⟩ ∧
    getK8sEndPoints
        { configErr := none, clientErr := none,
          endPoints := some [⟨"orders", [⟨["10.0.0.1"], [8080]⟩]⟩], endPointsErr := none,
          pods := [⟨[], "10.0.0.1"⟩], podsErr := none }
        ["orders"] =
      .ret ⟨[("orders", [⟨"10.0.0.1", 8080, 1⟩])], none, []⟩ := by
  refine ⟨?_, ?_, ?_⟩ <;> decide

end App
